import Mathlib

/-!
Shallow embedding of the disaster-management assistant pipeline
(`src/fine_tune.py` and the helper modules `utils.py`, `get_weather.py`,
`get_earthquakes.py`, `get_events.py`, `get_news.py`).

External I/O (geocoding, the four data-source HTTP calls, the LLM call) is
modelled by explicit outcome values supplied as inputs; the Python code's
exception handling is modelled by `Outcome.raised` / `ErrorOr.err`
constructors, mirroring which `try/except` blocks catch what.
-/

namespace DisasterMgmt

/-- Python truthiness of an optional string: `None` and `""` are falsy. -/
def truthy : Option String → Bool
  | none => false
  | some s => s != ""

/-- Python's `needle in hay` substring test. -/
def strContains (hay needle : String) : Bool :=
  decide (needle.data <:+: hay.data)

/-- Python renders `None` as the string `"None"` inside an f-string;
a present value is interpolated as-is (all modelled values are strings). -/
def orNoneStr : Option String → String
  | none => "None"
  | some s => s

/-- Python's `sep.join(xs)`. -/
def joinSep (sep : String) : List String → String
  | [] => ""
  | [x] => x
  | x :: y :: xs => x ++ sep ++ joinSep sep (y :: xs)

/-- Two-digit zero-padded rendering of a natural number below 100. -/
def pad2 (n : Nat) : String :=
  if n < 10 then "0" ++ toString n else toString n

/-- Round `100 * q` to the nearest integer (ties up): `⌊100q + 1/2⌋`,
computed on the numerator/denominator representation with integer
arithmetic only. -/
def ratRound100 (q : ℚ) : ℤ :=
  Int.fdiv (200 * q.num + q.den) (2 * q.den)

/-- Python's `f"{q:.2f}"` rendering of a rational number (two decimals;
the tie-rounding mode is immaterial to every claim, which only compares
coordinates as numbers and never inspects these digits). -/
def fmt2 (q : ℚ) : String :=
  let n : ℤ := ratRound100 q
  (if n < 0 then "-" else "") ++ toString (n.natAbs / 100) ++ "." ++ pad2 (n.natAbs % 100)

/-- Default latitude, `src/fine_tune.py:57`. -/
def DEFAULT_LAT : ℚ := mkRat 205937 10000

/-- Default longitude, `src/fine_tune.py:58`. -/
def DEFAULT_LON : ℚ := mkRat 789629 10000

/-! ## Geocoding (`src/utils.py`, lines 11-21) -/

/-- Raw outcome of the underlying `geocode(place_name)` library call inside
`get_coordinates`: a location object, `None`, or a raised exception. -/
inductive GeoRaw where
  | located (lat lon : ℚ)
  | notFound
  | raisedExc (msg : String)

/-- Result shape of `get_coordinates`: a dict with `latitude`/`longitude`
keys, or a dict with an `error` key. -/
inductive GeoResult where
  | coords (lat lon : ℚ)
  | errorPayload (msg : String)

/-- `utils.get_coordinates` (`src/utils.py:11-21`): its own `try/except`
normalises every raised exception to an error payload, so it never raises. -/
def get_coordinates (place_name : String) (raw : GeoRaw) : GeoResult :=
  match raw with
  | .located lat lon => .coords lat lon
  | .notFound => .errorPayload ("Could not geocode \x27" ++ place_name ++ "\x27.")
  | .raisedExc e => .errorPayload ("Geocoding failed for \x27" ++ place_name ++ "\x27: " ++ e)

/-! ## Location resolution (`src/fine_tune.py`, lines 211-228) -/

/-- The `location_detail` string for the default centroid,
`f"Default location ({DEFAULT_LAT:.2f}, {DEFAULT_LON:.2f})"`. -/
def defaultDetail : String :=
  "Default location (" ++ fmt2 DEFAULT_LAT ++ ", " ++ fmt2 DEFAULT_LON ++ ")"

/-- The local variables set by step 1 of `process_with_llm_context`. -/
structure LocationResolution where
  target_lat : ℚ
  target_lon : ℚ
  location_name_for_context : String
  location_detail : String

/-- Step 1 of `process_with_llm_context` (`src/fine_tune.py:211-228`):
geocode the optional location string; on a missing/falsy location or a
geocoding error keep the default centroid.  The success test is the Python
`"latitude" in coords` dict-key check, i.e. the `coords` constructor. -/
def resolveLocation (loc : Option String) (geoRaw : GeoRaw) : LocationResolution :=
  if truthy loc then
    let locStr := loc.getD ""
    match get_coordinates locStr geoRaw with
    | .coords lat lon =>
        { target_lat := lat, target_lon := lon
          location_name_for_context := locStr
          location_detail := locStr ++ " (" ++ fmt2 lat ++ ", " ++ fmt2 lon ++ ")" }
    | .errorPayload _ =>
        { target_lat := DEFAULT_LAT, target_lon := DEFAULT_LON
          location_name_for_context := "India (default)"
          location_detail := defaultDetail ++ " (Geocoding failed for: " ++ locStr ++ ")" }
  else
    { target_lat := DEFAULT_LAT, target_lon := DEFAULT_LON
      location_name_for_context := "India (default)"
      location_detail := defaultDetail }

/-! ## Adapter outcomes (`src/fine_tune.py`, `fetch_all_context`, lines 237-294)

Each helper returns a dict that either has an `"error"` key or is a success
payload; additionally the call may raise (every section of
`fetch_all_context` wraps its helper call in `try/except Exception`). -/

/-- A helper's returned dict: error shape (`"error" in d`) or payload. -/
inductive ErrorOr (α : Type) where
  | err (msg : String)
  | payload (a : α)

/-- A helper invocation: a raised exception (caught by the section's
`except Exception`) or a returned dict. -/
inductive Outcome (α : Type) where
  | raised (msg : String)
  | returned (r : ErrorOr α)

/-- Success payload of `get_city_weather`; field values are the string
renderings interpolated by the aggregator (a key absent from the dict is
`none`, which Python's f-string renders as `"None"`). -/
structure WeatherData where
  city : Option String
  temperature_c : Option String
  description : Option String
  humidity_pct : Option String
  wind_speed_mps : Option String

/-- One entry of the `earthquakes` list returned by
`get_recent_earthquakes_near_location`. -/
structure QuakeEntry where
  magnitude : String
  place : String
  time_utc : String

/-- Success payload of `get_recent_earthquakes_near_location`. -/
structure QuakesData where
  count : Int
  earthquakes : List QuakeEntry

/-- One entry of the `events` list returned by `get_natural_events`. -/
structure EventEntry where
  category : String
  title : String
  last_update_utc : String

/-- Success payload of `get_natural_events`. -/
structure EventsData where
  count : Int
  events : List EventEntry

/-- One entry of the `articles` list returned by `get_disaster_news`. -/
structure NewsArticle where
  title : String
  source : String

/-- Success payload of `get_disaster_news`. -/
structure NewsData where
  total_results : Int
  articles : List NewsArticle

/-- The four data-source outcomes of one request. -/
structure AdapterOutcomes where
  weather : Outcome WeatherData
  quakes : Outcome QuakesData
  events : Outcome EventsData
  news : Outcome NewsData

/-! ## Context gathering (`src/fine_tune.py`, `fetch_all_context`, lines 237-294) -/

/-- The external calls the `/process` pipeline can make. -/
inductive ExtCall where
  | geocode
  | weather
  | quakes
  | events
  | news
  | llm
deriving DecidableEq

/-- Guard of the weather section (`src/fine_tune.py:242`):
`if query.location_context and "Geocoding failed" not in context_data["location_info"]`. -/
def weatherGate (loc : Option String) (location_info : String) : Bool :=
  truthy loc && !(strContains location_info "Geocoding failed")

/-- The `weather_info` value (`src/fine_tune.py:243-251`): `None` on a raised
exception or an error payload, otherwise the one-line summary built at
line 247. -/
def weatherInfo (location_name_for_context : String) (o : Outcome WeatherData) : Option String :=
  match o with
  | .raised _ => none
  | .returned (.err _) => none
  | .returned (.payload d) =>
      some ("In " ++ (d.city.getD location_name_for_context) ++ ": "
        ++ orNoneStr d.temperature_c ++ "C, " ++ orNoneStr d.description
        ++ ", Humidity " ++ orNoneStr d.humidity_pct ++ "%, Wind "
        ++ orNoneStr d.wind_speed_mps ++ " m/s.")

/-- One item of the quake summary (`src/fine_tune.py:259`):
`f"Mag {q['magnitude']} near {q['place']} ({q['time_utc'][:16]}Z)"`. -/
def fmtQuake (q : QuakeEntry) : String :=
  "Mag " ++ q.magnitude ++ " near " ++ q.place ++ " (" ++ q.time_utc.take 16 ++ "Z)"

/-- The `quake_info` value (`src/fine_tune.py:254-262`): set only when the
payload has no error and a positive count; summarises the top 3 entries. -/
def quakeInfo (o : Outcome QuakesData) : Option String :=
  match o with
  | .raised _ => none
  | .returned (.err _) => none
  | .returned (.payload d) =>
      if 0 < d.count then
        some (joinSep "; " ((d.earthquakes.take 3).map fmtQuake))
      else none

/-- One item of the event summary (`src/fine_tune.py:270`):
`f"{e['category']}: {e['title']} (Updated {e['last_update_utc'][:10]})"`. -/
def fmtEvent (e : EventEntry) : String :=
  e.category ++ ": " ++ e.title ++ " (Updated " ++ e.last_update_utc.take 10 ++ ")"

/-- The `event_info` value (`src/fine_tune.py:265-273`). -/
def eventInfo (o : Outcome EventsData) : Option String :=
  match o with
  | .raised _ => none
  | .returned (.err _) => none
  | .returned (.payload d) =>
      if 0 < d.count then some (joinSep "; " (d.events.map fmtEvent)) else none

/-- The news query synthesised at `src/fine_tune.py:280`. -/
def newsQueryTerms (text_input : String) (loc : Option String)
    (location_name_for_context : String) : String :=
  "(" ++ text_input.take 80 ++ ") AND ("
    ++ (if truthy loc then location_name_for_context else "India")
    ++ ") AND (disaster OR flood OR cyclone OR earthquake OR heatwave OR landslide)"

/-- One item of the news summary (`src/fine_tune.py:283`):
`f"'{n['title']}' ({n['source']})"`. -/
def fmtArticle (n : NewsArticle) : String :=
  "\x27" ++ n.title ++ "\x27 (" ++ n.source ++ ")"

/-- The `news_info` value (`src/fine_tune.py:276-286`). -/
def newsInfo (o : Outcome NewsData) : Option String :=
  match o with
  | .raised _ => none
  | .returned (.err _) => none
  | .returned (.payload d) =>
      if 0 < d.total_results then some (joinSep "; " (d.articles.map fmtArticle)) else none

/-- The `context_data` dict after `context_data.update(fetched_context)`
(`src/fine_tune.py:228,301`): insertion order is `location_info` first,
then the four keys of the dict returned by `fetch_all_context`. -/
structure ContextData where
  location_info : String
  current_weather : Option String
  recent_earthquakes : Option String
  recent_natural_events : Option String
  related_news_headlines : Option String

/-- `fetch_all_context` (`src/fine_tune.py:237-294`) together with the
sequence of data-source calls it performs.  The four sections execute as
straight-line statements of a single coroutine (the helpers are synchronous
and are not awaited), in textual order: weather (guarded), earthquakes,
events, news.  Each section catches its own exceptions, so the function
always returns a result dict. -/
def fetch_all_context (loc : Option String) (res : LocationResolution)
    (o : AdapterOutcomes) : ContextData × List ExtCall :=
  let gate := weatherGate loc res.location_detail
  ({ location_info := res.location_detail
     current_weather := if gate then weatherInfo res.location_name_for_context o.weather else none
     recent_earthquakes := quakeInfo o.quakes
     recent_natural_events := eventInfo o.events
     related_news_headlines := newsInfo o.news },
   (if gate then [ExtCall.weather] else []) ++ [ExtCall.quakes, ExtCall.events, ExtCall.news])

/-! ## Prompt construction (`src/fine_tune.py`, lines 303-318) -/

/-- Helper for `pyTitle`: capitalise an alphabetic character when the
previous character was not alphabetic, lowercase it otherwise. -/
def pyTitleAux : Bool → List Char → List Char
  | _, [] => []
  | prevAlpha, c :: rest =>
      (if c.isAlpha then (if prevAlpha then c.toLower else c.toUpper) else c)
        :: pyTitleAux c.isAlpha rest

/-- Python's `key.replace('_', ' ').title()` (`src/fine_tune.py:304`). -/
def pyTitle (s : String) : String :=
  String.mk (pyTitleAux false (s.data.map fun c => if c = '_' then ' ' else c))

/-- `context_data.items()` in dict insertion order; `location_info` is always
present (set at line 228), the other four values come from
`fetch_all_context`. -/
def contextEntries (ctx : ContextData) : List (String × Option String) :=
  [("location_info", some ctx.location_info),
   ("current_weather", ctx.current_weather),
   ("recent_earthquakes", ctx.recent_earthquakes),
   ("recent_natural_events", ctx.recent_natural_events),
   ("related_news_headlines", ctx.related_news_headlines)]

/-- The `context_lines` comprehension (`src/fine_tune.py:304`):
`[f"- {key.replace('_',' ').title()}: {value}" for key, value in
context_data.items() if value and key != 'location_info']`. -/
def contextLines (ctx : ContextData) : List String :=
  (contextEntries ctx).filterMap fun kv =>
    match kv.2 with
    | some v => if v ≠ "" ∧ kv.1 ≠ "location_info"
        then some ("- " ++ pyTitle kv.1 ++ ": " ++ v) else none
    | none => none

/-- `context_string = "\n".join(context_lines)` (`src/fine_tune.py:305`). -/
def contextString (ctx : ContextData) : String :=
  joinSep "\n" (contextLines ctx)

/-- The sentinel substituted for an empty context block
(`src/fine_tune.py:313`). -/
def SENTINEL : String :=
  "No specific real-time context was retrieved for this query."

/-- The rendered context section of the prompt:
`{context_string if context_string else "No specific ..."}`. -/
def renderedContextSection (ctx : ContextData) : String :=
  if contextString ctx ≠ "" then contextString ctx else SENTINEL

/-- The fixed prompt text before the timestamp (`src/fine_tune.py:308-309`). -/
def promptRole : String :=
  "Role: You are an AI assistant specialized in Indian disaster management and safety procedures.\nCurrent Time: "

/-- The fixed prompt text after the user text (`src/fine_tune.py:317-318`). -/
def promptTask : String :=
  "\n\nTask: Based ONLY on the provided real-time information and your general knowledge of disaster management best practices relevant to India, respond directly and accurately to the user\x27s request. If providing safety advice, make it clear, concise, and actionable. If context is missing for a specific aspect of the query, state that clearly but still provide general advice if possible. Prioritize safety.\nResponse:"

/-- `final_prompt` (`src/fine_tune.py:308-318`): the f-string as a flat
concatenation; `timestamp` stands for the interpolated
`datetime.now().strftime('%Y-%m-%d %H:%M:%S IST')` value, the only
time-dependent input. -/
def buildFinalPrompt (ctx : ContextData) (userText timestamp : String) : String :=
  promptRole ++ timestamp
    ++ "\nLocation Context: " ++ ctx.location_info
    ++ "\n\nRelevant Real-time Information:\n" ++ renderedContextSection ctx
    ++ "\n\nUser\x27s Request: " ++ userText
    ++ promptTask

/-- Everything of the prompt that follows the timestamp: a function of the
aggregated context and the user text only. -/
def promptAfterTime (ctx : ContextData) (userText : String) : String :=
  "\nLocation Context: " ++ ctx.location_info
    ++ "\n\nRelevant Real-time Information:\n" ++ renderedContextSection ctx
    ++ "\n\nUser\x27s Request: " ++ userText
    ++ promptTask

/-! ## LLM call handling (`src/fine_tune.py`, lines 324-375) -/

/-- The Gemini response object as inspected by the handler:
`candidates` emptiness, the truthiness of
`prompt_feedback.block_reason`, and the behaviour of the `.text`
accessor (`.ok t` — returns `t`; `.extractionError m` — raises
`ValueError(m)`). -/
structure LLMResponse where
  has_candidates : Bool
  block_reason : Option String
  text : Except String String

/-- The `generate_content_async` invocation: a transport-level exception or
a response object. -/
inductive LLMCall where
  | raised (msg : String)
  | response (r : LLMResponse)

/-- An HTTP error as raised via `HTTPException(status_code, detail)`. -/
structure HTTPError where
  status : Nat
  detail : String
deriving DecidableEq

/-- Starlette renders `str(HTTPException(code, detail))` as
`f"{status_code}: {detail}"`; this is the text interpolated when such an
exception reaches an f-string. -/
def httpExcStr (status : Nat) (detail : String) : String :=
  toString status ++ ": " ++ detail

/-- Detail of the 502 raised by the blanket handler
(`src/fine_tune.py:375`): `f"Error communicating with the LLM service: {e}"`. -/
def llmUpstreamDetail (inner : String) : String :=
  "Error communicating with the LLM service: " ++ inner

/-- Step 4 of `process_with_llm_context` (`src/fine_tune.py:324-375`).
The whole section sits inside `try: ... except Exception as e: raise
HTTPException(502, ...)`.  `HTTPException` derives from `Exception`, so the
`HTTPException(400, ...)` raised for blocked/empty candidate lists (line
357) and the `HTTPException(500, ...)` raised when `.text` extraction fails
(line 368) are caught by that same blanket handler and re-raised as the 502
upstream error; only the successful-extraction path returns text. -/
def handleLLM (call : LLMCall) : Except HTTPError String :=
  match call with
  | .raised e => .error ⟨502, llmUpstreamDetail e⟩
  | .response r =>
      if !r.has_candidates then
        let gt := if truthy r.block_reason
          then "Response blocked by safety filter: " ++ r.block_reason.getD ""
          else "LLM response was empty or blocked for unknown reasons."
        .error ⟨502, llmUpstreamDetail (httpExcStr 400 gt)⟩
      else
        match r.text with
        | .ok t => .ok t
        | .error _ =>
            .error ⟨502, llmUpstreamDetail
              (httpExcStr 500 "Error: Could not parse LLM response content.")⟩

/-! ## The `/process` endpoint (`src/fine_tune.py`, lines 119-122 and 197-386) -/

/-- The request body before validation; `max_new_tokens` is `none` when the
field is absent from the JSON body. -/
structure RawProcessQuery where
  text_input : String
  location_context : Option String
  max_new_tokens : Option Int

/-- Pydantic validation of the `max_new_tokens` field
(`src/fine_tune.py:122`): `Field(default=300, ge=50, le=1024)`.  FastAPI
runs this before the endpoint body, so a violation rejects the request
before any external call. -/
def validateMaxNewTokens (v : Option Int) : Except String Int :=
  match v with
  | none => .ok 300
  | some n =>
      if 50 ≤ n ∧ n ≤ 1024 then .ok n
      else .error "max_new_tokens out of range [50, 1024]"

/-- How a request can abort: a pydantic validation error (422, before the
handler body runs) or an `HTTPException` raised inside the handler. -/
inductive Abort where
  | validation (msg : String)
  | http (e : HTTPError)

/-- The per-request external world: Gemini configuration state, the
geocoder's raw outcome, the four adapter outcomes, the LLM call outcome,
and the request timestamp. -/
structure Env where
  gemini_configured : Bool
  geo : GeoRaw
  adapters : AdapterOutcomes
  llm : LLMCall
  timestamp : String

/-- The JSON body returned on success (`src/fine_tune.py:381-386`). -/
structure ProcessResponse where
  user_query : String
  location_context_provided : Option String
  context_used_summary : ContextData
  llm_response : String

/-- The `/process` endpoint (`src/fine_tune.py:197-386`): validation, the
Gemini configuration check (line 207), location resolution, context
gathering, prompt construction, the LLM call, and the response — paired
with the list of external calls made, in order. -/
def process_with_llm_context (q : RawProcessQuery) (env : Env) :
    Except Abort ProcessResponse × List ExtCall :=
  match validateMaxNewTokens q.max_new_tokens with
  | .error m => (.error (.validation m), [])
  | .ok _ =>
    if !env.gemini_configured then
      (.error (.http ⟨503, "LLM Service (Gemini) is not configured or unavailable."⟩), [])
    else
      let res := resolveLocation q.location_context env.geo
      let geoCalls := if truthy q.location_context then [ExtCall.geocode] else []
      let fetched := fetch_all_context q.location_context res env.adapters
      let calls := geoCalls ++ fetched.2 ++ [ExtCall.llm]
      match handleLLM env.llm with
      | .error e => (.error (.http e), calls)
      | .ok t =>
          (.ok { user_query := q.text_input
                 location_context_provided := q.location_context
                 context_used_summary := fetched.1
                 llm_response := t }, calls)

/-! ## Sequential cost model of the context-gathering step

`fetch_all_context` executes its data-source calls as straight-line
statements of one coroutine with no await between them
(`src/fine_tune.py:240-294`), so call `i` is dispatched only once calls
`0..i-1` have completed.  Given a duration for each call, `seqSchedule`
computes each call's dispatch (start) time under that execution. -/

/-- Clock value at which call `c` starts when `trace` executes strictly
sequentially from clock value `clock`: each earlier call's duration is
added before the next call starts. -/
def dispatchTimeAux (d : ExtCall → ℕ) (clock : ℕ) : List ExtCall → ExtCall → ℕ
  | [], _ => 0
  | c2 :: rest, c => if c2 = c then clock else dispatchTimeAux d (clock + d c2) rest c

/-- Dispatch (start) time of call `c` in the strictly sequential execution
of `trace` (0 when `c` does not occur). -/
def dispatchTime (d : ExtCall → ℕ) (trace : List ExtCall) (c : ExtCall) : ℕ :=
  dispatchTimeAux d 0 trace c

/-- Total wall-clock time of a strictly sequential execution of `trace`. -/
def seqMakespan (d : ExtCall → ℕ) (trace : List ExtCall) : ℕ :=
  (trace.map d).sum

/-- Modelled from the spec: non-blocking concurrent fan-out means every
data-source call inside the context-aggregation step is dispatched
immediately when the step starts — its dispatch time is 0 regardless of
the durations of the other calls, so that a slow adapter delays only the
final join. -/
def specConcurrentFanOut : Prop :=
  ∀ (loc : Option String) (res : LocationResolution) (o : AdapterOutcomes)
    (d : ExtCall → ℕ) (c : ExtCall),
    c ∈ (fetch_all_context loc res o).2 →
    dispatchTime d (fetch_all_context loc res o).2 c = 0

/-! ## External call sites and their timeouts

One record per external call site of the pipeline, with the timeout (in
seconds) passed at that call site, read off the source. -/

/-- A call site of an external request, with the explicit timeout argument
passed there (`none` when the call passes no timeout). -/
structure ExternalCallSite where
  call : ExtCall
  timeout_seconds : Option ℕ

/-- `utils.py:14` — `geocode(place_name)`: no timeout argument. -/
def geocodeCallSite : ExternalCallSite := ⟨.geocode, none⟩

/-- `get_weather.py:18` — `requests.get(complete_url)`: no timeout argument. -/
def weatherCallSite : ExternalCallSite := ⟨.weather, none⟩

/-- `get_earthquakes.py:29` — `requests.get(USGS_BASE_URL, params=params, timeout=15)`. -/
def quakesCallSite : ExternalCallSite := ⟨.quakes, some 15⟩

/-- `get_events.py:26` — `requests.get(EONET_API_URL, params=params, timeout=15)`. -/
def eventsCallSite : ExternalCallSite := ⟨.events, some 15⟩

/-- `get_news.py:27` — `requests.get(NEWSAPI_ENDPOINT, ..., timeout=15)`. -/
def newsCallSite : ExternalCallSite := ⟨.news, some 15⟩

/-- `fine_tune.py:336-345` — `generate_content_async(final_prompt,
generation_config=...)`: no timeout / request options argument. -/
def llmCallSite : ExternalCallSite := ⟨.llm, none⟩

/-- All external call sites of the `/process` pipeline. -/
def externalCallSites : List ExternalCallSite :=
  [geocodeCallSite, weatherCallSite, quakesCallSite, eventsCallSite, newsCallSite, llmCallSite]

/-! ## Helper lemmas -/

/-- The failure-shaped `location_detail` always contains the substring the
weather guard looks for. -/
lemma contains_geocoding_failed (s : String) :
    strContains (defaultDetail ++ " (Geocoding failed for: " ++ s ++ ")") "Geocoding failed" = true := by
  apply decide_eq_true
  have h1 : ("Geocoding failed" : String).data <:+: (" (Geocoding failed for: " : String).data := by
    decide
  have h2 : (" (Geocoding failed for: " : String).data <:+:
      (defaultDetail ++ " (Geocoding failed for: " ++ s ++ ")").data := by
    show (" (Geocoding failed for: " : String).data <:+:
      ((defaultDetail.data ++ (" (Geocoding failed for: " : String).data) ++ s.data)
        ++ (")" : String).data
    exact (((List.suffix_append _ _).isInfix).trans ((List.prefix_append _ _).isInfix)).trans
      ((List.prefix_append _ _).isInfix)
  exact h1.trans h2

/-- One slot of the rendered bullet list: the line contributed by one
source, `none` when the source has no non-empty summary. -/
def lineOf (label : String) (v : Option String) : Option String :=
  match v with
  | none => none
  | some s => if s ≠ "" then some ("- " ++ label ++ ": " ++ s) else none

lemma pyTitle_cw : pyTitle "current_weather" = "Current Weather" := by decide

lemma pyTitle_re : pyTitle "recent_earthquakes" = "Recent Earthquakes" := by decide

lemma pyTitle_rne : pyTitle "recent_natural_events" = "Recent Natural Events" := by decide

lemma pyTitle_rnh : pyTitle "related_news_headlines" = "Related News Headlines" := by decide

/-- The `context_lines` comprehension renders exactly the non-empty
fragment summaries, one slot per source, in dict-insertion order
(weather, earthquakes, events, news); `location_info` is excluded. -/
lemma contextLines_eq (ctx : ContextData) :
    contextLines ctx =
      [lineOf "Current Weather" ctx.current_weather,
       lineOf "Recent Earthquakes" ctx.recent_earthquakes,
       lineOf "Recent Natural Events" ctx.recent_natural_events,
       lineOf "Related News Headlines" ctx.related_news_headlines].reduceOption := by
  obtain ⟨li, w, q, e, n⟩ := ctx
  cases w <;> cases q <;> cases e <;> cases n <;>
    simp [contextLines, contextEntries, lineOf, List.reduceOption] <;>
    split_ifs <;> simp_all [pyTitle_cw, pyTitle_re, pyTitle_rne, pyTitle_rnh]

/-- When validation, configuration and the LLM call all succeed, the
endpoint returns the success body, whatever the geocoding and adapter
outcomes were. -/
lemma process_ok (q : RawProcessQuery) (env : Env) (tok : ℤ)
    (hv : validateMaxNewTokens q.max_new_tokens = .ok tok)
    (hc : env.gemini_configured = true)
    (s : String) (hl : handleLLM env.llm = .ok s) :
    (process_with_llm_context q env).1 =
      .ok { user_query := q.text_input
            location_context_provided := q.location_context
            context_used_summary :=
              (fetch_all_context q.location_context
                (resolveLocation q.location_context env.geo) env.adapters).1
            llm_response := s } := by
  unfold process_with_llm_context
  rw [hv]
  simp [hc, hl]

/-- C2: for every combination of geocoder and adapter outcomes (error
payload, raised exception, or timeout — all represented by the outcome
constructors), the aggregation step never aborts the request: the endpoint
errors only on input validation, on the Gemini-not-configured check, or on
an LLM-call failure; and whenever validation, configuration and the LLM
call succeed, the endpoint returns the success body no matter what the
geocoder and the four adapters did. -/
theorem claim2_only_llm_and_validation_abort (q : RawProcessQuery) (env : Env) :
    (∀ a, (process_with_llm_context q env).1 = .error a →
        (∃ m, a = .validation m) ∨
        (a = .http ⟨503, "LLM Service (Gemini) is not configured or unavailable."⟩ ∧
          env.gemini_configured = false) ∨
        (∃ he, a = .http he ∧ handleLLM env.llm = .error he)) ∧
    (∀ tok, validateMaxNewTokens q.max_new_tokens = .ok tok →
      env.gemini_configured = true →
      ∀ s, handleLLM env.llm = .ok s →
        (process_with_llm_context q env).1 =
          .ok { user_query := q.text_input
                location_context_provided := q.location_context
                context_used_summary :=
                  (fetch_all_context q.location_context
                    (resolveLocation q.location_context env.geo) env.adapters).1
                llm_response := s }) := by
  constructor
  · intro a ha
    unfold process_with_llm_context at ha
    cases hv : validateMaxNewTokens q.max_new_tokens with
    | error m =>
        rw [hv] at ha
        simp at ha
        exact Or.inl ⟨m, ha.symm⟩
    | ok tok =>
        rw [hv] at ha
        cases hc : env.gemini_configured with
        | false =>
            simp [hc] at ha
            exact Or.inr (Or.inl ⟨ha.symm, rfl⟩)
        | true =>
            cases hl : handleLLM env.llm with
            | error he =>
                simp [hc, hl] at ha
                exact Or.inr (Or.inr ⟨he, ha.symm, rfl⟩)
            | ok s => simp [hc, hl] at ha
  · intro tok hv hc s hl
    exact process_ok q env tok hv hc s hl

/-- C2 witness: a concrete request in which the geocoder finds nothing and
all four adapters raise, yet the endpoint returns the LLM's text. -/
theorem claim2_witness :
    (process_with_llm_context ⟨"hello", none, none⟩
        ⟨true, .notFound, ⟨.raised "", .raised "", .raised "", .raised ""⟩,
          .response ⟨true, none, .ok "advice"⟩, "ts"⟩).1 =
      .ok { user_query := "hello"
            location_context_provided := none
            context_used_summary :=
              (fetch_all_context none (resolveLocation none .notFound)
                ⟨.raised "", .raised "", .raised "", .raised ""⟩).1
            llm_response := "advice" } :=
  (claim2_only_llm_and_validation_abort ⟨"hello", none, none⟩
      ⟨true, .notFound, ⟨.raised "", .raised "", .raised "", .raised ""⟩,
        .response ⟨true, none, .ok "advice"⟩, "ts"⟩).2 300 rfl rfl "advice" rfl

/-- C5: whenever the geocoder is not invoked (no/falsy location string) or
returns an error payload (not found, raised exception, timeout), the
coordinates used for context are exactly the fixed default centroid
(20.5937, 78.9629), and this is never fatal: with a successful LLM call
the pipeline still returns a non-error result. -/
theorem claim5_default_centroid (q : RawProcessQuery) (env : Env)
    (h : truthy q.location_context = false ∨
      ∃ msg, get_coordinates (q.location_context.getD "") env.geo = .errorPayload msg) :
    (resolveLocation q.location_context env.geo).target_lat = DEFAULT_LAT ∧
    (resolveLocation q.location_context env.geo).target_lon = DEFAULT_LON ∧
    (∀ tok, validateMaxNewTokens q.max_new_tokens = .ok tok →
      env.gemini_configured = true →
      ∀ s, handleLLM env.llm = .ok s →
        ∃ resp, (process_with_llm_context q env).1 = .ok resp ∧ resp.llm_response = s) := by
  have hres : (resolveLocation q.location_context env.geo).target_lat = DEFAULT_LAT ∧
      (resolveLocation q.location_context env.geo).target_lon = DEFAULT_LON := by
    by_cases ht : truthy q.location_context = true
    · rcases h with h | ⟨msg, hmsg⟩
      · rw [ht] at h; cases h
      · simp [resolveLocation, ht, hmsg]
    · have ht2 : truthy q.location_context = false := by
        cases hb : truthy q.location_context
        · rfl
        · exact absurd hb ht
      simp [resolveLocation, ht2]
  refine ⟨hres.1, hres.2, ?_⟩
  intro tok hv hc s hl
  exact ⟨_, process_ok q env tok hv hc s hl, rfl⟩

/-- C5 witness: a concrete request with no location string resolves to the
default centroid and still completes with the LLM's text. -/
theorem claim5_witness :
    (resolveLocation (none : Option String) GeoRaw.notFound).target_lat = DEFAULT_LAT ∧
    ∃ resp,
      (process_with_llm_context ⟨"hi", none, none⟩
          ⟨true, .notFound, ⟨.raised "", .raised "", .raised "", .raised ""⟩,
            .response ⟨true, none, .ok "stay safe"⟩, "ts"⟩).1 = .ok resp ∧
      resp.llm_response = "stay safe" := by
  have h := claim5_default_centroid ⟨"hi", none, none⟩
    ⟨true, .notFound, ⟨.raised "", .raised "", .raised "", .raised ""⟩,
      .response ⟨true, none, .ok "stay safe"⟩, "ts"⟩ (Or.inl rfl)
  exact ⟨h.1, h.2.2 300 rfl rfl "stay safe" rfl⟩


/-- C1 counterexample: the claimed non-blocking concurrent fan-out is false
of the code.  In `fetch_all_context`, with the weather guard satisfied and
a weather-call duration of 7, the seismic call is dispatched at time 7, not
at time 0: the four calls run sequentially in one coroutine, so a slow
adapter delays the dispatch of the calls after it. -/
theorem claim1_counterexample : ¬ specConcurrentFanOut := by
  intro h
  have hm : ExtCall.quakes ∈
      (fetch_all_context (some "Kolkata")
        ⟨mkRat 2257 100, mkRat 8836 100, "Kolkata", "Kolkata (22.57, 88.36)"⟩
        ⟨.raised "", .raised "", .raised "", .raised ""⟩).2 := by decide
  have h0 := h (some "Kolkata")
    ⟨mkRat 2257 100, mkRat 8836 100, "Kolkata", "Kolkata (22.57, 88.36)"⟩
    ⟨.raised "", .raised "", .raised "", .raised ""⟩
    (fun c => match c with | .weather => 7 | _ => 0) .quakes hm
  revert h0
  decide

/-- C1 (amended): the four data-source calls of `fetch_all_context` are
executed strictly sequentially in the fixed textual order weather, seismic,
events, news (weather gated by the guard); each call is dispatched only
after all earlier calls have completed, so each call's dispatch time is the
sum of the durations of the calls before it, and the aggregation's total
wall time is the sum — not the maximum — of the four durations.  No
per-call timeout exists at this level. -/
theorem claim1_sequential_dispatch (loc : Option String) (res : LocationResolution)
    (o : AdapterOutcomes) (d : ExtCall → ℕ)
    (hg : weatherGate loc res.location_detail = true) :
    (fetch_all_context loc res o).2 = [.weather, .quakes, .events, .news] ∧
    dispatchTime d (fetch_all_context loc res o).2 .weather = 0 ∧
    dispatchTime d (fetch_all_context loc res o).2 .quakes = d .weather ∧
    dispatchTime d (fetch_all_context loc res o).2 .events = d .weather + d .quakes ∧
    dispatchTime d (fetch_all_context loc res o).2 .news = d .weather + d .quakes + d .events ∧
    seqMakespan d (fetch_all_context loc res o).2
      = d .weather + d .quakes + d .events + d .news := by
  have ht : (fetch_all_context loc res o).2 = [.weather, .quakes, .events, .news] := by
    simp [fetch_all_context, hg]
  rw [ht]
  refine ⟨rfl, ?_, ?_, ?_, ?_, ?_⟩ <;>
    · simp [dispatchTime, dispatchTimeAux, seqMakespan]
      try omega

/-- C1 witness: at a concrete gate-satisfying input, the seismic call's
dispatch time equals the weather call's duration. -/
theorem claim1_sequential_dispatch_witness :
    weatherGate (some "Kolkata") "Kolkata (22.57, 88.36)" = true ∧
    dispatchTime (fun c => match c with | .weather => 7 | _ => 0)
      (fetch_all_context (some "Kolkata")
        ⟨mkRat 2257 100, mkRat 8836 100, "Kolkata", "Kolkata (22.57, 88.36)"⟩
        ⟨.raised "", .raised "", .raised "", .raised ""⟩).2 .quakes
      = (fun c : ExtCall => match c with | .weather => 7 | _ => 0) .weather := by
  refine ⟨by decide, ?_⟩
  exact (claim1_sequential_dispatch (some "Kolkata")
    ⟨mkRat 2257 100, mkRat 8836 100, "Kolkata", "Kolkata (22.57, 88.36)"⟩
    ⟨.raised "", .raised "", .raised "", .raised ""⟩
    (fun c => match c with | .weather => 7 | _ => 0) (by decide)).2.2.1

/-- C3: evaluation of the response handler at the claim's failing inputs.
A response with an empty candidate list and a populated block reason — for
which the claim (and the code's own raise of `HTTPException(400, ...)`)
prescribes a distinct `Blocked` outcome — actually produces the 502
upstream-error outcome, because the handler's blanket `except Exception`
catches its own `HTTPException`; likewise the empty (no block reason) case.
The extraction-failure, transport-exception and success cases follow the
claim. -/
theorem claim3_blocked_empty_collapse :
    handleLLM (.response ⟨false, some "SAFETY", .error ""⟩)
      = .error ⟨502, llmUpstreamDetail
          (httpExcStr 400 "Response blocked by safety filter: SAFETY")⟩ ∧
    handleLLM (.response ⟨false, none, .error ""⟩)
      = .error ⟨502, llmUpstreamDetail
          (httpExcStr 400 "LLM response was empty or blocked for unknown reasons.")⟩ ∧
    handleLLM (.response ⟨true, none, .error "ValueError"⟩)
      = .error ⟨502, llmUpstreamDetail
          (httpExcStr 500 "Error: Could not parse LLM response content.")⟩ ∧
    handleLLM (.raised "DeadlineExceeded")
      = .error ⟨502, llmUpstreamDetail "DeadlineExceeded"⟩ ∧
    handleLLM (.response ⟨true, none, .ok "advice text"⟩) = .ok "advice text" := by
  exact ⟨rfl, rfl, rfl, rfl, rfl⟩

/-- C4 counterexample: with zero qualifying fragments the rendered context
section is not the claimed string "no specific real-time context was
retrieved"; it is the code's longer sentinel. -/
theorem claim4_counterexample :
    renderedContextSection ⟨"Default location (20.59, 78.96)", none, none, none, none⟩
        ≠ "no specific real-time context was retrieved" ∧
    renderedContextSection ⟨"Default location (20.59, 78.96)", none, none, none, none⟩
        = SENTINEL := by
  constructor
  · decide
  · decide

/-- C4 (amended): whenever no source produced a non-empty summary, the
rendered context section of the prompt equals exactly the fixed sentinel
"No specific real-time context was retrieved for this query." rather than
an empty block. -/
theorem claim4_sentinel (ctx : ContextData)
    (hw : ctx.current_weather = none ∨ ctx.current_weather = some "")
    (hq : ctx.recent_earthquakes = none ∨ ctx.recent_earthquakes = some "")
    (he : ctx.recent_natural_events = none ∨ ctx.recent_natural_events = some "")
    (hn : ctx.related_news_headlines = none ∨ ctx.related_news_headlines = some "") :
    renderedContextSection ctx = SENTINEL := by
  have hl : contextLines ctx = [] := by
    rw [contextLines_eq]
    rcases hw with hw | hw <;> rcases hq with hq | hq <;> rcases he with he | he <;>
      rcases hn with hn | hn <;> simp [hw, hq, he, hn, lineOf, List.reduceOption]
  rw [renderedContextSection, contextString, hl]
  simp [joinSep]

/-- C4 witness: a concrete context with no qualifying fragment renders the
sentinel. -/
theorem claim4_sentinel_witness :
    renderedContextSection ⟨"x", none, some "", none, none⟩ = SENTINEL :=
  claim4_sentinel _ (Or.inl rfl) (Or.inr rfl) (Or.inl rfl) (Or.inl rfl)

/-- C6: the rendered bullet list contains exactly one optional slot per
source, in the fixed source order weather, seismic, events, news —
determined by the dict's insertion order, with no dependence on any
completion order — and a slot contributes a labeled bullet line if and only
if that source's summary is present and non-empty. -/
theorem claim6_fixed_source_order (ctx : ContextData) :
    contextLines ctx =
      [lineOf "Current Weather" ctx.current_weather,
       lineOf "Recent Earthquakes" ctx.recent_earthquakes,
       lineOf "Recent Natural Events" ctx.recent_natural_events,
       lineOf "Related News Headlines" ctx.related_news_headlines].reduceOption :=
  contextLines_eq ctx

/-- C7 counterexample: not every external call of the pipeline carries its
own timeout — the weather request passes none. -/
theorem claim7_counterexample :
    ¬ (∀ c ∈ externalCallSites, ∃ t, c.timeout_seconds = some t) := by
  intro h
  obtain ⟨t, ht⟩ := h weatherCallSite (by exact .tail _ (.head _))
  exact Option.noConfusion ht

/-- C7 (amended): the seismic, events and news requests each pass an
explicit 15-second timeout; the weather request, the geocode invocation and
the LLM call pass no timeout at their call sites. -/
theorem claim7_timeouts :
    quakesCallSite.timeout_seconds = some 15 ∧
    eventsCallSite.timeout_seconds = some 15 ∧
    newsCallSite.timeout_seconds = some 15 ∧
    weatherCallSite.timeout_seconds = none ∧
    geocodeCallSite.timeout_seconds = none ∧
    llmCallSite.timeout_seconds = none :=
  ⟨rfl, rfl, rfl, rfl, rfl, rfl⟩

/-- C8: the prompt builder is pure and deterministic — for a fixed
aggregated context and user text, any two constructed prompts factor as the
same fixed prefix, the timestamp, and the same context-and-text-determined
remainder, so they are byte-identical except for the embedded timestamp. -/
theorem claim8_prompt_pure (ctx : ContextData) (userText t₁ t₂ : String) :
    buildFinalPrompt ctx userText t₁ = promptRole ++ t₁ ++ promptAfterTime ctx userText ∧
    buildFinalPrompt ctx userText t₂ = promptRole ++ t₂ ++ promptAfterTime ctx userText := by
  constructor <;> simp [buildFinalPrompt, promptAfterTime, String.append_assoc]

/-- C9: a request whose `max_new_tokens` field is outside [50, 1024] is
rejected by pydantic validation before the handler body runs, so no
external call (geocode, adapters, LLM) is made; when the field is absent it
defaults to 300. -/
theorem claim9_token_validation :
    (∀ (m : ℤ) (q : RawProcessQuery) (env : Env),
        q.max_new_tokens = some m → (m < 50 ∨ 1024 < m) →
        process_with_llm_context q env =
          (.error (.validation "max_new_tokens out of range [50, 1024]"), [])) ∧
    validateMaxNewTokens none = .ok 300 := by
  refine ⟨?_, rfl⟩
  intro m q env hm hr
  have hv : validateMaxNewTokens q.max_new_tokens
      = .error "max_new_tokens out of range [50, 1024]" := by
    rw [hm]
    show (if 50 ≤ m ∧ m ≤ 1024 then Except.ok m
      else Except.error "max_new_tokens out of range [50, 1024]")
        = Except.error "max_new_tokens out of range [50, 1024]"
    rw [if_neg]
    rintro ⟨h1, h2⟩
    rcases hr with hr | hr <;> omega
  unfold process_with_llm_context
  rw [hv]

/-- C9 witness: a concrete request with `max_new_tokens = 2000` is rejected
with an empty call trace. -/
theorem claim9_witness :
    process_with_llm_context ⟨"hi", none, some 2000⟩
        ⟨true, .notFound, ⟨.raised "", .raised "", .raised "", .raised ""⟩,
          .raised "boom", "ts"⟩ =
      (.error (.validation "max_new_tokens out of range [50, 1024]"), []) :=
  claim9_token_validation.1 2000 ⟨"hi", none, some 2000⟩
    ⟨true, .notFound, ⟨.raised "", .raised "", .raised "", .raised ""⟩, .raised "boom", "ts"⟩
    rfl (Or.inr (by norm_num))

/-- C10: when no (truthy) location string is supplied, or geocoding of the
supplied string returns an error, the weather adapter is not invoked at
all: the call trace of the gathering step is exactly seismic, events, news;
the weather entry of the gathered context is `None`; and the rendered
prompt lines contain no weather slot. -/
theorem claim10_no_weather_on_default_path (q : RawProcessQuery) (env : Env)
    (h : truthy q.location_context = false ∨
      ∃ msg, get_coordinates (q.location_context.getD "") env.geo = .errorPayload msg) :
    (fetch_all_context q.location_context (resolveLocation q.location_context env.geo)
        env.adapters).1.current_weather = none ∧
    (fetch_all_context q.location_context (resolveLocation q.location_context env.geo)
        env.adapters).2 = [.quakes, .events, .news] ∧
    contextLines (fetch_all_context q.location_context
        (resolveLocation q.location_context env.geo) env.adapters).1 =
      [lineOf "Recent Earthquakes" (quakeInfo env.adapters.quakes),
       lineOf "Recent Natural Events" (eventInfo env.adapters.events),
       lineOf "Related News Headlines" (newsInfo env.adapters.news)].reduceOption := by
  have hg : weatherGate q.location_context
      (resolveLocation q.location_context env.geo).location_detail = false := by
    by_cases ht : truthy q.location_context = true
    · rcases h with h | ⟨msg, hmsg⟩
      · rw [ht] at h; cases h
      · simp [resolveLocation, ht, hmsg, weatherGate, contains_geocoding_failed]
    · have ht2 : truthy q.location_context = false := by
        cases hb : truthy q.location_context
        · rfl
        · exact absurd hb ht
      simp [weatherGate, ht2]
  refine ⟨?_, ?_, ?_⟩
  · simp [fetch_all_context, hg]
  · simp [fetch_all_context, hg]
  · rw [contextLines_eq]
    simp [fetch_all_context, hg, lineOf, List.reduceOption]

/-- C10 witness: a concrete request without a location string queries only
the seismic, events and news sources. -/
theorem claim10_witness :
    (fetch_all_context none (resolveLocation none .notFound)
        ⟨.raised "", .raised "", .raised "", .raised ""⟩).1.current_weather = none ∧
    (fetch_all_context none (resolveLocation none .notFound)
        ⟨.raised "", .raised "", .raised "", .raised ""⟩).2 = [.quakes, .events, .news] ∧
    contextLines (fetch_all_context none (resolveLocation none .notFound)
        ⟨.raised "", .raised "", .raised "", .raised ""⟩).1 =
      [lineOf "Recent Earthquakes" (quakeInfo (.raised "")),
       lineOf "Recent Natural Events" (eventInfo (.raised "")),
       lineOf "Related News Headlines" (newsInfo (.raised ""))].reduceOption :=
  claim10_no_weather_on_default_path ⟨"hi", none, none⟩
    ⟨true, .notFound, ⟨.raised "", .raised "", .raised "", .raised ""⟩, .raised "", "ts"⟩
    (Or.inl rfl)


end DisasterMgmt
